import Mathlib

/-!
Verification of the dataset validation and badge pipeline of the CRU thesis
repository, embedded from `scripts/check_predictions.py`.

Modelling conventions:
* Python floats are modelled as exact rationals (`ℚ`); none of the verified
  properties depends on floating-point rounding.
* A CSV file on disk is a `CsvFile` (header column names plus rows); a check's
  input is `Option CsvFile`, with `none` standing for "file absent from disk".
* Python exceptions are modelled with `Except String`: a `ValueError` raised by
  `read_csv_columns` or by `min()` over an empty sequence becomes `.error msg`,
  and the absence of any `try/except` inside the check functions and `main` is
  mirrored by propagating `.error` outward; the `if __name__ == "__main__"`
  guard around `main()` becomes `topLevel`, which catches the error and emits
  the fail badge and error report.
* Python's numeric string formatting (`f"{x:.3e}"` etc.) is modelled by `fmtQ`,
  which renders the exact rational; no verified property depends on the digits
  of a formatted number, only on the fixed words surrounding them (in
  particular on whether the text "SKIPPED" occurs).
-/

namespace CRU

section

attribute [local semireducible] Rat.mul Rat.inv Rat.add Rat.sub Rat.ofScientific

/-- `DATA_DIR`-relative path of the UHECR flux dataset (`UHECR_CSV`). -/
def UHECR_CSV : String := "data/uhecr_flux.csv"

/-- Path of the gravitational-wave strain dataset (`GW_CSV`). -/
def GW_CSV : String := "data/gw_strain.csv"

/-- Path of the CMB TT power-spectrum dataset (`CMB_TT`). -/
def CMB_TT : String := "data/cmb_cl_TT.csv"

/-- Path the badge is written to (`BADGE_OUT`). -/
def BADGE_OUT : String := "badges/cru_checks.svg"

/-- Path the report is written to (`REPORT_MD`). -/
def REPORT_MD : String := "logs/checks_report.md"

/-- Decimal digit character for `n % 10`. -/
def digCh (n : Nat) : Char :=
  match n % 10 with
  | 0 => '0'
  | 1 => '1'
  | 2 => '2'
  | 3 => '3'
  | 4 => '4'
  | 5 => '5'
  | 6 => '6'
  | 7 => '7'
  | 8 => '8'
  | _ => '9'

/-- Decimal digits of `n` (fuel-based; `fuel ≥ 1 + n` always suffices). -/
def natCharsF : Nat → Nat → List Char
  | 0, _ => []
  | fuel + 1, n => if n < 10 then [digCh n] else natCharsF fuel (n / 10) ++ [digCh (n % 10)]

/-- Decimal rendering of a natural number. -/
def natStr (n : Nat) : String := String.mk (natCharsF (n + 1) n)

/-- Rendering of a rational value into the detail strings.  The Python source
renders floats with format specifiers such as `:.3e`; this model renders the
exact rational as `num/den`.  No verified property depends on the digits, only
on the fixed surrounding words of each detail string. -/
def fmtQ (q : ℚ) : String :=
  (if q < 0 then "-" else "") ++ natStr q.num.natAbs ++ "/" ++ natStr q.den

/-- Does `n` occur as the leading characters of `h`? -/
def prefAt : List Char → List Char → Bool
  | [], _ => true
  | _ :: _, [] => false
  | a :: as, b :: bs => a == b && prefAt as bs

/-- Does `n` occur as a contiguous run anywhere in `h`? -/
def subAt (n : List Char) : List Char → Bool
  | [] => n.isEmpty
  | b :: bs => prefAt n (b :: bs) || subAt n bs

/-- Python's substring test `needle in hay`. -/
def strHasSub (needle hay : String) : Bool := subAt needle.data hay.data

/-- A CSV file on disk: header column names and data rows.  Each row maps a
column name to its (already parsed) numeric value, mirroring `csv.DictReader`
rows followed by `float(...)` conversion. -/
structure CsvFile where
  cols : List String
  data : List (String → ℚ)

/-- The `(name, ok, detail)` triple each check function returns. -/
structure CheckResult where
  name : String
  ok : Bool
  detail : String

/-- `read_csv_columns`: raises `ValueError` (modelled as `.error`) on the first
required column missing from the header, otherwise returns the rows. -/
def read_csv_columns (path : String) (file : CsvFile) (required_cols : List String) :
    Except String (List (String → ℚ)) :=
  match required_cols.find? (fun col => !(file.cols.contains col)) with
  | some col =>
      .error ("File " ++ path ++ " missing required column \x27" ++ col ++
        "\x27. Found: " ++ String.intercalate ", " file.cols)
  | none => .ok file.data

/-- Argmin loop of `nearest_index`: Python's `min` keeps the first index
attaining the minimal key, hence the strict `<` when updating. -/
def nearestAux (target : ℚ) : List ℚ → Nat → Nat → ℚ → Nat
  | [], _, best, _ => best
  | v :: vs, i, best, bestDist =>
    if abs (v - target) < bestDist then nearestAux target vs (i + 1) i (abs (v - target))
    else nearestAux target vs (i + 1) best bestDist

/-- `nearest_index`: index of the value closest to `target`.  On an empty list
Python's `min` raises `ValueError: min() arg is an empty sequence`. -/
def nearest_index (values : List ℚ) (target : ℚ) : Except String Nat :=
  match values with
  | [] => .error "min() arg is an empty sequence"
  | v :: vs => .ok (nearestAux target vs 1 0 (abs (v - target)))

/-- Insertion into a sorted list (helper for `sortQ`). -/
def insertQ (x : ℚ) : List ℚ → List ℚ
  | [] => [x]
  | y :: ys => if x ≤ y then x :: y :: ys else y :: insertQ x ys

/-- `sorted(xs)` for a list of numbers. -/
def sortQ : List ℚ → List ℚ
  | [] => []
  | x :: xs => insertQ x (sortQ xs)

/-- The `median` helper of `check_cmb_well_formed`: middle element of the
sorted list, or the mean of the two middle elements for even length. -/
def median (xs : List ℚ) : ℚ :=
  let s := sortQ xs
  let n := s.length
  if n % 2 = 1 then s.getD (n / 2) 0 else (s.getD (n / 2 - 1) 0 + s.getD (n / 2) 0) / 2

/-- `check_uhecr_suppression`: SKIP when the file is absent; FAIL on
non-positive flux; otherwise PASS iff `J(E2)/J(E1) ≤ 0.30`. -/
def check_uhecr_suppression (file : Option CsvFile) : Except String CheckResult :=
  match file with
  | none => .ok ⟨"UHECR suppression", true, "SKIPPED (data/uhecr_flux.csv not found)"⟩
  | some f =>
    match read_csv_columns UHECR_CSV f ["log10E", "J"] with
    | .error e => .error e
    | .ok rows =>
      match nearest_index (rows.map (fun r => r "log10E")) (196 / 10) with
      | .error e => .error e
      | .ok i1 =>
        match nearest_index (rows.map (fun r => r "log10E")) 20 with
        | .error e => .error e
        | .ok i2 =>
          let J1 := (rows.map (fun r => r "J")).getD i1 0
          let J2 := (rows.map (fun r => r "J")).getD i2 0
          if J1 ≤ 0 ∨ J2 ≤ 0 then
            .ok ⟨"UHECR suppression", false,
              "FAIL: non-positive flux values (J1=" ++ fmtQ J1 ++ ", J2=" ++ fmtQ J2 ++ ")."⟩
          else
            .ok ⟨"UHECR suppression", decide (J2 / J1 ≤ 3 / 10),
              "E1≈10^19.6 eV: J1=" ++ fmtQ J1 ++ "\nE2≈10^20.0 eV: J2=" ++ fmtQ J2 ++
                "\nratio J(E2)/J(E1)=" ++ fmtQ (J2 / J1) ++ " (threshold ≤ 0.30) → " ++
                (if J2 / J1 ≤ 3 / 10 then "PASS" else "FAIL")⟩

/-- `check_gw_level`: SKIP when the file is absent; otherwise PASS iff the
strain nearest to `f = 1e-3 Hz` lies in the envelope `[5e-24, 5e-21]`. -/
def check_gw_level (file : Option CsvFile) : Except String CheckResult :=
  match file with
  | none => .ok ⟨"GW level", true, "SKIPPED (data/gw_strain.csv not found)"⟩
  | some f =>
    match read_csv_columns GW_CSV f ["f", "h"] with
    | .error e => .error e
    | .ok rows =>
      match nearest_index (rows.map (fun r => r "f")) (1 / 1000) with
      | .error e => .error e
      | .ok idx =>
        let f0 := (rows.map (fun r => r "f")).getD idx 0
        let h0 := (rows.map (fun r => r "h")).getD idx 0
        .ok ⟨"GW level", decide (5 / 10 ^ 24 ≤ h0 ∧ h0 ≤ 5 / 10 ^ 21),
          "Nearest to 1e-3 Hz → f=" ++ fmtQ f0 ++ " Hz, h=" ++ fmtQ h0 ++
            "\nAllowed envelope: [" ++ fmtQ (5 / 10 ^ 24) ++ ", " ++ fmtQ (5 / 10 ^ 21) ++
            "] → " ++ (if 5 / 10 ^ 24 ≤ h0 ∧ h0 ≤ 5 / 10 ^ 21 then "PASS" else "FAIL")⟩

/-- `check_cmb_well_formed`: SKIP when the file is absent; FAIL when the
window `500 ≤ ℓ ≤ 2500` has fewer than 20 samples, contains a non-positive
value, or a comparison band is empty; otherwise PASS iff the high-ℓ median is
below the low-ℓ median. -/
def check_cmb_well_formed (file : Option CsvFile) : Except String CheckResult :=
  match file with
  | none => .ok ⟨"CMB TT well-formed", true, "SKIPPED (data/cmb_cl_TT.csv not found)"⟩
  | some f =>
    match read_csv_columns CMB_TT f ["ell", "Cl"] with
    | .error e => .error e
    | .ok rows =>
      let window := ((rows.map (fun r => r "ell")).zip (rows.map (fun r => r "Cl"))).filter
        (fun p => decide (500 ≤ p.1 ∧ p.1 ≤ 2500))
      if window.length < 20 then
        .ok ⟨"CMB TT well-formed", false, "FAIL: insufficient samples in 500≤ℓ≤2500."⟩
      else if window.any (fun p => decide (p.2 ≤ 0)) then
        .ok ⟨"CMB TT well-formed", false, "FAIL: non-positive Cℓ values in 500≤ℓ≤2500."⟩
      else
        let band_lo := (window.filter (fun p => decide (500 ≤ p.1 ∧ p.1 ≤ 800))).map (fun p => p.2)
        let band_hi := (window.filter (fun p => decide (1000 ≤ p.1 ∧ p.1 ≤ 2500))).map (fun p => p.2)
        if band_lo.length = 0 ∨ band_hi.length = 0 then
          .ok ⟨"CMB TT well-formed", false, "FAIL: not enough points in comparison bands."⟩
        else
          .ok ⟨"CMB TT well-formed", decide (median band_hi < median band_lo),
            "Median Cℓ[500–800]=" ++ fmtQ (median band_lo) ++ ", Median Cℓ[1000–2500]=" ++
              fmtQ (median band_hi) ++ "\nRequire high-ℓ median < low-ℓ median → " ++
              (if median band_hi < median band_lo then "PASS" else "FAIL")⟩

/-- Fixed badge markup before the first `label` splice (`write_badge`). -/
def badgeP1 : String := "<svg xmlns=\"http://www.w3.org/2000/svg\" width=\"110\" height=\"20\" role=\"img\" aria-label=\""

/-- Fixed badge markup between the aria-label text and the `color` splice. -/
def badgeP2 : String := "\">\n  <linearGradient id=\"b\" x2=\"0\" y2=\"100%\">\n    <stop offset=\"0\" stop-color=\"#bbb\" stop-opacity=\".1\"/>\n    <stop offset=\"1\" stop-opacity=\".1\"/>\n  </linearGradient>\n  <mask id=\"a\">\n    <rect width=\"110\" height=\"20\" rx=\"3\" fill=\"#fff\"/>\n  </mask>\n  <g mask=\"url(#a)\">\n    <rect width=\"70\" height=\"20\" fill=\"#555\"/>\n    <rect x=\"70\" width=\"40\" height=\"20\" fill=\""

/-- Fixed badge markup between the `color` splice and the label text node. -/
def badgeP3 : String := "\"/>\n    <rect width=\"110\" height=\"20\" fill=\"url(#b)\"/>\n  </g>\n  <g fill=\"#fff\" text-anchor=\"middle\" font-family=\"DejaVu Sans,Verdana,Geneva,sans-serif\" font-size=\"11\">\n    <text x=\"35\" y=\"15\">"

/-- Fixed badge markup between the label and status text nodes. -/
def badgeP4 : String := "</text>\n    <text x=\"90\" y=\"15\">"

/-- Fixed badge markup after the status text node. -/
def badgeP5 : String := "</text>\n  </g>\n</svg>\n"

/-- `write_badge`: the SVG document written for a given overall result and
label.  The color and status word are derived from `passing`; all geometry in
the template is fixed. -/
def badgeSvg (passing : Bool) (label : String) : String :=
  badgeP1 ++ label ++ ": " ++ (if passing then "passing" else "failing") ++
    badgeP2 ++ (if passing then "#4c1" else "#e05d44") ++
    badgeP3 ++ label ++ badgeP4 ++ (if passing then "passing" else "failing") ++ badgeP5

/-- Width of the badge's label rect as a function of the label text: the
template at line 78 of the source uses the constant 70 for every label. -/
def labelRectWidth : String → Nat := fun _ => 70

/-- Width of the badge's status rect as a function of the status text: the
template at line 79 of the source uses the constant 40 for every status. -/
def statusRectWidth : String → Nat := fun _ => 40

/-- The report written by the `__main__` guard when `main` raises. -/
def errorReport (e : String) : String :=
  "# CRU Technical Thesis — Automated Checks\n\n**ERROR:** " ++ e ++ "\n"

/-- Status word `main` prints for one check: `PASS`/`FAIL` from the boolean,
overridden to `SKIP` when the substring `SKIPPED` occurs in the detail. -/
def statusOf (ok : Bool) (detail : String) : String :=
  if strHasSub "SKIPPED" detail then "SKIP" else if ok then "PASS" else "FAIL"

/-- The `passed_all` loop of `main`: starts `True` and flips to `False` on a
check that is not ok and whose detail does not contain `SKIPPED`. -/
def passedAll (checks : List CheckResult) : Bool :=
  checks.foldl (fun acc t => if !t.ok && !strHasSub "SKIPPED" t.detail then false else acc) true

/-- The `any_executed` flag of `main`: some check's detail lacks `SKIPPED`. -/
def anyExecuted (checks : List CheckResult) : Bool :=
  checks.any (fun t => !strHasSub "SKIPPED" t.detail)

/-- The two report lines `main` appends for one check. -/
def checkSection (t : CheckResult) : List String :=
  ["## " ++ t.name ++ ": **" ++ statusOf t.ok t.detail ++ "**\n",
   "```\n" ++ t.detail ++ "\n```\n"]

/-- What one process invocation produces: the written files in write order
(path and content), the overall boolean, and the process exit code. -/
structure RunOutput where
  artifacts : List (String × String)
  passed : Bool
  exit : Nat

/-- The report/badge composition at the end of `main` (lines 233-261): builds
the markdown report, the all-skipped note, the overall boolean, writes the
report then the badge, and picks exit code 0 or 1. -/
def composeOutput (checks : List CheckResult) : RunOutput :=
  let lines := "# CRU Technical Thesis — Automated Checks\n" :: (checks.map checkSection).flatten
  let pAll := if anyExecuted checks then passedAll checks else true
  let allLines := if anyExecuted checks then lines
    else lines ++ ["> All checks skipped (no datasets found). Treating as PASS for CI.\n"]
  { artifacts := [(REPORT_MD, String.intercalate "\n" allLines),
      (BADGE_OUT, badgeSvg pAll "CRU checks")],
    passed := pAll,
    exit := if pAll then 0 else 1 }

/-- `main`: evaluates the three registered checks in order — with no
`try/except` around them, so the first raised error aborts the remaining
checks — then composes the report and badge. -/
def mainRun (u g c : Option CsvFile) : Except String RunOutput :=
  match check_uhecr_suppression u with
  | .error e => .error e
  | .ok r1 =>
    match check_gw_level g with
    | .error e => .error e
    | .ok r2 =>
      match check_cmb_well_formed c with
      | .error e => .error e
      | .ok r3 => .ok (composeOutput [r1, r2, r3])

/-- The `if __name__ == "__main__"` guard: runs `main`, and on any exception
writes the FAIL badge, then the error report, and exits with code 1. -/
def topLevel (u g c : Option CsvFile) : RunOutput :=
  match mainRun u g c with
  | .ok out => out
  | .error e =>
      { artifacts := [(BADGE_OUT, badgeSvg false "CRU checks"), (REPORT_MD, errorReport e)],
        passed := false,
        exit := 1 }

/-- The boolean outcome of a check evaluation, when it returned at all. -/
def outcomeOf : Except String CheckResult → Option Bool
  | .ok r => some r.ok
  | .error _ => none

/-- A UHECR data row with the given `log10E` and `J` values. -/
def mkUhecrRow (e j : ℚ) : String → ℚ :=
  fun col => if col = "log10E" then e else if col = "J" then j else 0

/-- UHECR dataset from the spec's PASS example: `J(10^19.6) = 3.2e-18`,
`J(10^20) = 1.0e-19` (ratio `1/32 = 0.03125`). -/
def uhecrPassFile : CsvFile :=
  ⟨["log10E", "J"], [mkUhecrRow (196 / 10) (32 / 10 ^ 19), mkUhecrRow 20 (1 / 10 ^ 19)]⟩

/-- UHECR dataset from the spec's FAIL example: `J(10^20) = 1.0e-18`
(ratio `10/32 = 0.3125`). -/
def uhecrFailFile : CsvFile :=
  ⟨["log10E", "J"], [mkUhecrRow (196 / 10) (32 / 10 ^ 19), mkUhecrRow 20 (1 / 10 ^ 18)]⟩

/-- UHECR dataset with a zero measured flux at `10^19.6`. -/
def uhecrZeroFile : CsvFile := ⟨["log10E", "J"], [mkUhecrRow (196 / 10) 0, mkUhecrRow 20 5]⟩

/-- UHECR dataset file that exists but has zero data rows. -/
def uhecrEmptyFile : CsvFile := ⟨["log10E", "J"], []⟩

/-- UHECR dataset file whose header lacks the required column `J`. -/
def uhecrNoJFile : CsvFile := ⟨["log10E"], []⟩

/-- GW dataset file that exists but has zero data rows. -/
def gwEmptyFile : CsvFile := ⟨["f", "h"], []⟩

/-- CMB dataset file that exists but has zero data rows. -/
def cmbEmptyFile : CsvFile := ⟨["ell", "Cl"], []⟩

theorem dataAppend (a b : String) : (a ++ b).data = a.data ++ b.data := by
  cases a
  cases b
  rfl

theorem prefAt_iff (n : List Char) : ∀ h : List Char, prefAt n h = true ↔ n <+: h := by
  induction n with
  | nil => intro h; simp [prefAt, List.nil_prefix]
  | cons a as ih =>
    intro h
    cases h with
    | nil => simp [prefAt]
    | cons b bs => simp [prefAt, List.cons_prefix_cons, ih, And.comm]

theorem subAt_iff (n h : List Char) : subAt n h = true ↔ n <:+: h := by
  induction h with
  | nil =>
    cases n with
    | nil => simp [subAt, List.isEmpty]
    | cons a as => simp [subAt, List.isEmpty, List.infix_nil]
  | cons b bs ih => simp [subAt, prefAt_iff, ih, List.infix_cons_iff]

theorem strHasSub_iff (n h : String) : strHasSub n h = true ↔ n.data <:+: h.data := by
  simp [strHasSub, subAt_iff]

theorem strHasSub_sandwich (x s y : String) : strHasSub s (x ++ s ++ y) = true := by
  rw [strHasSub_iff, dataAppend, dataAppend]
  exact ⟨x.data, y.data, rfl⟩

theorem strHasSub_trans {n a h : String} (h1 : strHasSub n a = true)
    (h2 : strHasSub a h = true) : strHasSub n h = true := by
  rw [strHasSub_iff] at h1 h2 ⊢
  exact h1.trans h2

theorem mem_of_strHasSub {n h : String} (hs : strHasSub n h = true) {c : Char}
    (hc : c ∈ n.data) : c ∈ h.data :=
  ((strHasSub_iff n h).mp hs).subset hc

theorem strHasSub_skipped_false {s : String} (h : 'K' ∉ s.data) :
    strHasSub "SKIPPED" s = false := by
  cases hb : strHasSub "SKIPPED" s with
  | false => rfl
  | true => exact absurd (mem_of_strHasSub hb (by decide)) h

theorem noK_app {a b : String} (ha : 'K' ∉ a.data) (hb : 'K' ∉ b.data) :
    'K' ∉ (a ++ b).data := by
  rw [dataAppend]
  intro hmem
  rcases List.mem_append.mp hmem with hm | hm
  exacts [ha hm, hb hm]

theorem digCh_ne (n : Nat) : digCh n ≠ 'K' := by
  unfold digCh
  split <;> decide

theorem natCharsF_noK (fuel n : Nat) : 'K' ∉ natCharsF fuel n := by
  induction fuel generalizing n with
  | zero => simp [natCharsF]
  | succ k ih =>
    simp only [natCharsF]
    split
    · intro hmem
      simp only [List.mem_singleton] at hmem
      exact digCh_ne n hmem.symm
    · intro hmem
      rcases List.mem_append.mp hmem with hm | hm
      · exact ih _ hm
      · simp only [List.mem_singleton] at hm
        exact digCh_ne _ hm.symm

theorem natStr_noK (n : Nat) : 'K' ∉ (natStr n).data :=
  natCharsF_noK (n + 1) n

theorem itePF_noK (c : Prop) [Decidable c] : 'K' ∉ (if c then "PASS" else "FAIL").data := by
  split <;> decide

theorem fmtQ_noK (q : ℚ) : 'K' ∉ (fmtQ q).data := by
  unfold fmtQ
  apply noK_app
  apply noK_app
  apply noK_app
  · split <;> decide
  · exact natStr_noK _
  · decide
  · exact natStr_noK _

theorem uhecr_ok_no_skip {f : CsvFile} {r : CheckResult}
    (h : check_uhecr_suppression (some f) = .ok r) :
    strHasSub "SKIPPED" r.detail = false := by
  apply strHasSub_skipped_false
  simp only [check_uhecr_suppression] at h
  split at h
  · exact absurd h (by simp)
  split at h
  · exact absurd h (by simp)
  split at h
  · exact absurd h (by simp)
  split at h
  · cases h
    exact noK_app (noK_app (noK_app (noK_app (by decide) (fmtQ_noK _)) (by decide))
      (fmtQ_noK _)) (by decide)
  · cases h
    exact noK_app (noK_app (noK_app (noK_app (noK_app (noK_app (noK_app (by decide)
      (fmtQ_noK _)) (by decide)) (fmtQ_noK _)) (by decide)) (fmtQ_noK _)) (by decide))
      (itePF_noK _)

theorem gw_ok_no_skip {f : CsvFile} {r : CheckResult}
    (h : check_gw_level (some f) = .ok r) :
    strHasSub "SKIPPED" r.detail = false := by
  apply strHasSub_skipped_false
  simp only [check_gw_level] at h
  split at h
  · exact absurd h (by simp)
  split at h
  · exact absurd h (by simp)
  cases h
  exact noK_app (noK_app (noK_app (noK_app (noK_app (noK_app (noK_app (noK_app (noK_app
    (by decide) (fmtQ_noK _)) (by decide)) (fmtQ_noK _)) (by decide)) (fmtQ_noK _))
    (by decide)) (fmtQ_noK _)) (by decide)) (itePF_noK _)

theorem cmb_ok_no_skip {f : CsvFile} {r : CheckResult}
    (h : check_cmb_well_formed (some f) = .ok r) :
    strHasSub "SKIPPED" r.detail = false := by
  apply strHasSub_skipped_false
  simp only [check_cmb_well_formed] at h
  split at h
  · exact absurd h (by simp)
  split at h
  · cases h
    decide
  split at h
  · cases h
    decide
  split at h
  · cases h
    decide
  cases h
  exact noK_app (noK_app (noK_app (noK_app (noK_app (by decide) (fmtQ_noK _)) (by decide))
    (fmtQ_noK _)) (by decide)) (itePF_noK _)

theorem passedAll_cons_skip (r : CheckResult) (rs : List CheckResult)
    (h : strHasSub "SKIPPED" r.detail = true) : passedAll (r :: rs) = passedAll rs := by
  simp [passedAll, h]

theorem passedAll_eq_filter (rs : List CheckResult) :
    passedAll rs =
      ((rs.filter (fun t => !strHasSub "SKIPPED" t.detail)).all (fun t => t.ok)) := by
  have haux : ∀ (l : List CheckResult) (acc : Bool),
      l.foldl (fun acc t => if !t.ok && !strHasSub "SKIPPED" t.detail then false else acc) acc =
        (acc && (l.filter (fun t => !strHasSub "SKIPPED" t.detail)).all (fun t => t.ok)) := by
    intro l
    induction l with
    | nil => intro acc; simp
    | cons t l ih =>
      intro acc
      rw [List.foldl_cons, ih]
      cases hs : strHasSub "SKIPPED" t.detail <;> cases ho : t.ok <;>
        simp [List.filter_cons, hs, ho]
  simpa [passedAll] using haux rs true

/-- C1: every check whose dataset file is absent returns a SKIP result (ok
boolean `true`, detail containing `SKIPPED`, classified `SKIP`) rather than
FAIL; a SKIP result never flips the overall result to FAIL; and when all
three datasets are missing the run reports overall PASS and exits with 0. -/
theorem missing_dataset_skips_and_all_skipped_passes :
    check_uhecr_suppression none =
        .ok ⟨"UHECR suppression", true, "SKIPPED (data/uhecr_flux.csv not found)"⟩ ∧
    check_gw_level none = .ok ⟨"GW level", true, "SKIPPED (data/gw_strain.csv not found)"⟩ ∧
    check_cmb_well_formed none =
        .ok ⟨"CMB TT well-formed", true, "SKIPPED (data/cmb_cl_TT.csv not found)"⟩ ∧
    statusOf true "SKIPPED (data/uhecr_flux.csv not found)" = "SKIP" ∧
    (∀ (r : CheckResult) (rs : List CheckResult),
      strHasSub "SKIPPED" r.detail = true → passedAll (r :: rs) = passedAll rs) ∧
    (topLevel none none none).passed = true ∧ (topLevel none none none).exit = 0 :=
  ⟨rfl, rfl, rfl, by decide, passedAll_cons_skip, by decide, by decide⟩

/-- Witness for C1: instantiates the SKIP-never-flips conjunct on a concrete
skipped result sitting in front of the empty list. -/
theorem missing_dataset_skips_witness :
    passedAll [⟨"UHECR suppression", false, "SKIPPED (data/uhecr_flux.csv not found)"⟩] =
      passedAll [] :=
  missing_dataset_skips_and_all_skipped_passes.2.2.2.2.1
    ⟨"UHECR suppression", false, "SKIPPED (data/uhecr_flux.csv not found)"⟩ [] (by decide)

/-- C2 counterexample: with a UHECR file present but missing column `J` (and
the other two datasets absent), the whole run aborts through the top-level
handler — the report is the error report, which mentions neither the other
checks (`GW level` does not occur in it) nor a per-check FAIL section for
`UHECR suppression`; no other check appears anywhere in the output. -/
theorem schema_error_aborts_run_cex :
    topLevel (some uhecrNoJFile) none none =
      ⟨[(BADGE_OUT, badgeSvg false "CRU checks"),
        (REPORT_MD,
          errorReport "File data/uhecr_flux.csv missing required column \x27J\x27. Found: log10E")],
        false, 1⟩ ∧
    strHasSub "GW level"
      (errorReport "File data/uhecr_flux.csv missing required column \x27J\x27. Found: log10E") =
        false ∧
    strHasSub "UHECR suppression"
      (errorReport "File data/uhecr_flux.csv missing required column \x27J\x27. Found: log10E") =
        false :=
  ⟨rfl, by decide, by decide⟩

/-- C2 amended: an error raised while evaluating the first check (such as the
`ValueError` for a missing required column) aborts the whole run: no later
check executes or appears, and the top-level handler writes the FAIL badge and
the bare error report and exits 1, whatever the other datasets hold. -/
theorem schema_error_aborts_run (f : CsvFile) (e : String) (g c : Option CsvFile)
    (h : check_uhecr_suppression (some f) = .error e) :
    topLevel (some f) g c =
      ⟨[(BADGE_OUT, badgeSvg false "CRU checks"), (REPORT_MD, errorReport e)], false, 1⟩ := by
  simp [topLevel, mainRun, h]

/-- Witness for C2's amended theorem at the concrete missing-column file. -/
theorem schema_error_aborts_run_witness :
    topLevel (some uhecrNoJFile) none none =
      ⟨[(BADGE_OUT, badgeSvg false "CRU checks"),
        (REPORT_MD,
          errorReport "File data/uhecr_flux.csv missing required column \x27J\x27. Found: log10E")],
        false, 1⟩ :=
  schema_error_aborts_run uhecrNoJFile
    "File data/uhecr_flux.csv missing required column \x27J\x27. Found: log10E" none none rfl

/-- C3 counterexample: a run of the orchestrator writes two artifacts, not
three — there is no separate machine-readable summary file. -/
theorem three_artifacts_cex : (topLevel none none none).artifacts.length = 2 := by decide

/-- C3 amended: every invocation writes exactly two artifacts — the
human-readable markdown report at `logs/checks_report.md` and the badge at
`badges/cru_checks.svg` (in that order on the normal path, badge first on the
error path); the JSON summary named by the spec belongs to the separate
`fetch_auger.py` script, not to this orchestrator. -/
theorem exactly_two_artifacts (u g c : Option CsvFile) :
    (topLevel u g c).artifacts.length = 2 ∧
    ((topLevel u g c).artifacts.map Prod.fst = [REPORT_MD, BADGE_OUT] ∨
      (topLevel u g c).artifacts.map Prod.fst = [BADGE_OUT, REPORT_MD]) := by
  unfold topLevel
  cases hm : mainRun u g c with
  | error e => simp
  | ok out =>
    have hshape : ∃ rs, out = composeOutput rs := by
      unfold mainRun at hm
      split at hm
      · exact absurd hm (by simp)
      split at hm
      · exact absurd hm (by simp)
      split at hm
      · exact absurd hm (by simp)
      exact ⟨_, ((Except.ok.injEq _ _).mp hm).symm⟩
    obtain ⟨rs, rfl⟩ := hshape
    simp [composeOutput]

/-- C4: whenever `main` raises (any error escaping the orchestration), the
`__main__` guard still writes the FAIL badge and a report that contains the
error text, and the process exits with the non-zero code 1. -/
theorem uncaught_error_writes_fail_badge (u g c : Option CsvFile) (e : String)
    (h : mainRun u g c = .error e) :
    (topLevel u g c).artifacts =
        [(BADGE_OUT, badgeSvg false "CRU checks"), (REPORT_MD, errorReport e)] ∧
    strHasSub e (errorReport e) = true ∧
    (topLevel u g c).exit = 1 := by
  refine ⟨by simp [topLevel, h], ?_, by simp [topLevel, h]⟩
  exact strHasSub_sandwich "# CRU Technical Thesis — Automated Checks\n\n**ERROR:** " e "\n"

/-- Witness for C4 at the concrete schema-broken UHECR file. -/
theorem uncaught_error_writes_fail_badge_witness :
    (topLevel (some uhecrNoJFile) none none).exit = 1 :=
  (uncaught_error_writes_fail_badge (some uhecrNoJFile) none none
    "File data/uhecr_flux.csv missing required column \x27J\x27. Found: log10E" rfl).2.2

/-- C5: on the spec's example data — `J(10^19.6 eV) = 3.2e-18` with
`J(10^20 eV) = 1.0e-19` (ratio `0.03125`) — the UHECR suppression check
passes; with `J(10^20 eV) = 1.0e-18` (ratio `0.3125`) it fails. -/
theorem uhecr_threshold_pass_and_fail :
    outcomeOf (check_uhecr_suppression (some uhecrPassFile)) = some true ∧
    outcomeOf (check_uhecr_suppression (some uhecrFailFile)) = some false :=
  ⟨by decide, by decide⟩

/-- C6 counterexample: a UHECR dataset file that exists but has zero rows
makes the check raise (Python's `min()` over an empty sequence), instead of
returning a FAIL result with an insufficient-data detail. -/
theorem zero_rows_raises_cex :
    check_uhecr_suppression (some uhecrEmptyFile) = .error "min() arg is an empty sequence" :=
  rfl

/-- C6 amended: only the CMB check converts an under-populated comparison
window into a FAIL result with an insufficient-data detail; the two
nearest-sample checks (UHECR, GW) raise `ValueError` on a zero-row dataset,
which aborts the whole run instead of failing just that check. -/
theorem insufficient_data_behaviour :
    (∀ (f : CsvFile) (rows : List (String → ℚ)),
      read_csv_columns CMB_TT f ["ell", "Cl"] = .ok rows →
      (((rows.map (fun r => r "ell")).zip (rows.map (fun r => r "Cl"))).filter
          (fun p => decide (500 ≤ p.1 ∧ p.1 ≤ 2500))).length < 20 →
      check_cmb_well_formed (some f) =
        .ok ⟨"CMB TT well-formed", false, "FAIL: insufficient samples in 500≤ℓ≤2500."⟩) ∧
    (∀ f : CsvFile, read_csv_columns UHECR_CSV f ["log10E", "J"] = .ok [] →
      check_uhecr_suppression (some f) = .error "min() arg is an empty sequence") ∧
    (∀ f : CsvFile, read_csv_columns GW_CSV f ["f", "h"] = .ok [] →
      check_gw_level (some f) = .error "min() arg is an empty sequence") := by
  refine ⟨?_, ?_, ?_⟩
  · intro f rows h hlen
    simp only [check_cmb_well_formed, h]
    rw [if_pos hlen]
  · intro f h
    simp only [check_uhecr_suppression, h, List.map_nil, nearest_index]
  · intro f h
    simp only [check_gw_level, h, List.map_nil, nearest_index]

/-- Witness for C6's amended theorem: the empty CMB file FAILs with the
insufficient-data detail, the empty GW file raises. -/
theorem insufficient_data_behaviour_witness :
    check_cmb_well_formed (some cmbEmptyFile) =
        .ok ⟨"CMB TT well-formed", false, "FAIL: insufficient samples in 500≤ℓ≤2500."⟩ ∧
    check_gw_level (some gwEmptyFile) = .error "min() arg is an empty sequence" :=
  ⟨insufficient_data_behaviour.1 cmbEmptyFile [] rfl (by decide),
   insufficient_data_behaviour.2.2 gwEmptyFile rfl⟩

/-- C7: whenever either flux value feeding the UHECR ratio is zero or
negative, the check returns the explicit non-positive-flux FAIL result before
any division happens, so no division error can arise (the ratio branch only
runs with a strictly positive denominator). -/
theorem nonpositive_flux_fails_before_ratio (f : CsvFile) (rows : List (String → ℚ))
    (i1 i2 : Nat)
    (hr : read_csv_columns UHECR_CSV f ["log10E", "J"] = .ok rows)
    (h1 : nearest_index (rows.map (fun r => r "log10E")) (196 / 10) = .ok i1)
    (h2 : nearest_index (rows.map (fun r => r "log10E")) 20 = .ok i2)
    (hnp : (rows.map (fun r => r "J")).getD i1 0 ≤ 0 ∨
      (rows.map (fun r => r "J")).getD i2 0 ≤ 0) :
    check_uhecr_suppression (some f) =
      .ok ⟨"UHECR suppression", false,
        "FAIL: non-positive flux values (J1=" ++
          fmtQ ((rows.map (fun r => r "J")).getD i1 0) ++ ", J2=" ++
          fmtQ ((rows.map (fun r => r "J")).getD i2 0) ++ ")."⟩ := by
  simp only [check_uhecr_suppression, hr, h1, h2]
  rw [if_pos hnp]

/-- Witness for C7 at a concrete dataset with a zero flux at `10^19.6 eV`. -/
theorem nonpositive_flux_fails_before_ratio_witness :
    check_uhecr_suppression (some uhecrZeroFile) =
      .ok ⟨"UHECR suppression", false,
        "FAIL: non-positive flux values (J1=" ++ fmtQ 0 ++ ", J2=" ++ fmtQ 5 ++ ")."⟩ :=
  nonpositive_flux_fails_before_ratio uhecrZeroFile
    [mkUhecrRow (196 / 10) 0, mkUhecrRow 20 5] 0 1 rfl rfl rfl (Or.inl (by decide))

/-- C8: the badge renderer is a pure function — identical passed boolean and
label give byte-identical output — and for a fixed label it has exactly two
states: every output is the pass badge or the fail badge, and those two
differ. -/
theorem badge_deterministic_two_states :
    (∀ (b1 b2 : Bool) (l1 l2 : String),
      b1 = b2 → l1 = l2 → badgeSvg b1 l1 = badgeSvg b2 l2) ∧
    (∀ (b : Bool) (l : String),
      badgeSvg b l = badgeSvg true l ∨ badgeSvg b l = badgeSvg false l) ∧
    (∀ l : String, badgeSvg true l ≠ badgeSvg false l) := by
  refine ⟨?_, ?_, ?_⟩
  · rintro b1 b2 l1 l2 rfl rfl
    rfl
  · intro b l
    cases b
    · exact Or.inr rfl
    · exact Or.inl rfl
  · intro l h
    have hlen := congrArg String.length h
    have e1 : ("passing" : String).length = 7 := by decide
    have e2 : ("failing" : String).length = 7 := by decide
    have e3 : ("#4c1" : String).length = 4 := by decide
    have e4 : ("#e05d44" : String).length = 7 := by decide
    simp [badgeSvg, String.length_append, e1, e2, e3, e4] at hlen

/-- Witness for C8: the determinism conjunct applied at concrete inputs. -/
theorem badge_deterministic_two_states_witness :
    badgeSvg true "CRU checks" = badgeSvg true "CRU checks" :=
  badge_deterministic_two_states.1 true true "CRU checks" "CRU checks" rfl rfl

/-- C9 counterexample: the widths of the badge's two regions do not grow with
the text length — the empty text and a ten-character text get identical
widths (the constants 70 and 40), so no positive per-character pixel width
can describe them. -/
theorem badge_width_constant_cex :
    labelRectWidth "" = labelRectWidth "0123456789" ∧
    statusRectWidth "" = statusRectWidth "0123456789" ∧
    labelRectWidth "0123456789" = 70 ∧ statusRectWidth "0123456789" = 40 :=
  ⟨rfl, rfl, rfl, rfl⟩

/-- The fixed middle fragment of the badge template occurs in every rendered
badge (helper for the amended C9). -/
theorem badgeP2_occurs (b : Bool) (l : String) : strHasSub badgeP2 (badgeSvg b l) = true := by
  rw [strHasSub_iff]
  refine ⟨(badgeP1 ++ l ++ ": " ++ (if b then "passing" else "failing")).data,
    ((if b then "#4c1" else "#e05d44") ++ badgeP3 ++ l ++ badgeP4 ++
      (if b then "passing" else "failing") ++ badgeP5).data, ?_⟩
  simp [badgeSvg, dataAppend, List.append_assoc]

/-- The fixed leading fragment of the badge template occurs in every rendered
badge (helper for the amended C9). -/
theorem badgeP1_occurs (b : Bool) (l : String) : strHasSub badgeP1 (badgeSvg b l) = true := by
  rw [strHasSub_iff]
  refine ⟨[], (l ++ ": " ++ (if b then "passing" else "failing") ++ badgeP2 ++
    (if b then "#4c1" else "#e05d44") ++ badgeP3 ++ l ++ badgeP4 ++
    (if b then "passing" else "failing") ++ badgeP5).data, ?_⟩
  simp [badgeSvg, dataAppend, List.append_assoc]

set_option maxRecDepth 10000 in
/-- C9 amended: the region widths are fixed constants independent of the text
— 70 pixels for the label region, 40 for the status region, 110 total — and
the rendered badge contains these constant-width rects for every input. -/
theorem badge_width_constants (b : Bool) (l s : String) :
    labelRectWidth l = 70 ∧ statusRectWidth s = 40 ∧
    strHasSub "width=\"70\"" (badgeSvg b l) = true ∧
    strHasSub "x=\"70\" width=\"40\"" (badgeSvg b l) = true ∧
    strHasSub "width=\"110\"" (badgeSvg b l) = true :=
  ⟨rfl, rfl,
   strHasSub_trans (by decide) (badgeP2_occurs b l),
   strHasSub_trans (by decide) (badgeP2_occurs b l),
   strHasSub_trans (by decide) (badgeP1_occurs b l)⟩

/-- C10: the orchestrator classifies a result as SKIP exactly when the
substring `SKIPPED` occurs in its detail string (there is no separate
tri-state field); every SKIP-classified result any of the three registered
checks can return carries the boolean `true`; and the overall boolean is the
conjunction of the ok booleans over the results whose details do not contain
`SKIPPED`. -/
theorem skip_classification_and_overall :
    (∀ (ok : Bool) (d : String), statusOf ok d = "SKIP" ↔ strHasSub "SKIPPED" d = true) ∧
    (∀ (u : Option CsvFile) (r : CheckResult),
      check_uhecr_suppression u = .ok r → strHasSub "SKIPPED" r.detail = true → r.ok = true) ∧
    (∀ (g : Option CsvFile) (r : CheckResult),
      check_gw_level g = .ok r → strHasSub "SKIPPED" r.detail = true → r.ok = true) ∧
    (∀ (c : Option CsvFile) (r : CheckResult),
      check_cmb_well_formed c = .ok r → strHasSub "SKIPPED" r.detail = true → r.ok = true) ∧
    (∀ rs : List CheckResult,
      passedAll rs = (rs.filter (fun t => !strHasSub "SKIPPED" t.detail)).all (fun t => t.ok)) := by
  refine ⟨?_, ?_, ?_, ?_, passedAll_eq_filter⟩
  · intro ok d
    cases hs : strHasSub "SKIPPED" d <;> cases ok <;> simp [statusOf, hs]
  · intro u r h hs
    cases u with
    | none => cases h; rfl
    | some f => simp [uhecr_ok_no_skip h] at hs
  · intro g r h hs
    cases g with
    | none => cases h; rfl
    | some f => simp [gw_ok_no_skip h] at hs
  · intro c r h hs
    cases c with
    | none => cases h; rfl
    | some f => simp [cmb_ok_no_skip h] at hs

/-- Witness for C10: the classification rule and the overall-conjunction rule
instantiated on concrete results. -/
theorem skip_classification_and_overall_witness :
    statusOf true "SKIPPED (data/uhecr_flux.csv not found)" = "SKIP" ∧
    passedAll [⟨"GW level", false, "no match"⟩] =
      (([⟨"GW level", false, "no match"⟩] : List CheckResult).filter
        (fun t => !strHasSub "SKIPPED" t.detail)).all (fun t => t.ok) :=
  ⟨(skip_classification_and_overall.1 true "SKIPPED (data/uhecr_flux.csv not found)").mpr
      (by decide),
   skip_classification_and_overall.2.2.2.2 [⟨"GW level", false, "no match"⟩]⟩

end

end CRU
